import Mathlib

/-!
Shallow embedding of the SearchGear bus-charter backend (quote lifecycle,
booking lifecycle, audit log, notification gateway).

Conventions of the embedding:
* Mongo documents become Lean structures; object ids become `Nat`.
* Dates are modelled as integer day numbers (`Int`); the JS
  `setDate(getDate() + n)` is day addition.
* JS `undefined`-able values become `Option`; JS truthiness of an optional
  string (`undefined` and `""` are falsy) is `strTruthy`.
* A JS function that can throw is modelled with `Except String` or with an
  explicit error constructor in its response type; an Express handler's
  `res.status(...).json(...)` calls become constructors of a response
  inductive, one constructor per distinct response shape in the source.
* The persistence layer is a list of documents inside a `DB` record;
  `document.save()` is mongoose validation (the schema's validators) followed
  by the schema's pre-save hook, then replacement in the list by id.
* The outcome of the underlying mail transport (nodemailer `sendMail`) is an
  input parameter, since it is an external collaborator.
-/

namespace SearchGear

/-- Outcome of the underlying nodemailer transport for one `sendMail` call:
either a message id, or a transport error message. -/
inductive TransportResult where
  | ok (messageId : String)
  | err (errMessage : String)
deriving DecidableEq, Repr

/-- The result object built by `emailService.sendQuotationEmail` on success
(`{ success, messageId, message }`). -/
structure EmailResult where
  success : Bool
  messageId : Option String
  message : String
deriving DecidableEq, Repr

/-- `emailService.sendQuotationEmail` (src/src/services/emailService.js,
lines 64-351): on transport success it returns
`{ success: true, messageId, message: 'Quotation email sent successfully' }`;
on a transport error it catches and re-throws
`new Error('Failed to send quotation email: ' + error.message)`.
A thrown error is `Except.error`. -/
def sendQuotationEmail (transport : TransportResult) : Except String EmailResult :=
  match transport with
  | .ok msgId =>
      .ok { success := true, messageId := some msgId,
            message := "Quotation email sent successfully" }
  | .err e => .error ("Failed to send quotation email: " ++ e)

/-- JS truthiness of an optional string: `undefined` and `""` are falsy. -/
def strTruthy : Option String → Bool
  | none => false
  | some s => s ≠ ""

/-- A user document, reduced to the fields the claimed operations read
(`populate('user', 'firstName lastName ...')`). -/
structure User where
  firstName : String
  lastName : String
deriving DecidableEq, Repr

/-- A `QuoteRequest` document (src/unnamed/part_004). Statuses and bus types
are kept as the source's string literals. -/
structure Quote where
  id : Nat
  userId : Nat
  pickupLocation : String
  dropoffLocation : String
  numberOfDays : Nat
  busType : String
  numberOfPassengers : Nat
  departureDate : Int
  specialRequests : Option String
  status : String
  estimatedPrice : Option Int
  adminNotes : Option String
deriving DecidableEq, Repr

/-- Mongoose validation of a `QuoteRequest` document, run by `save()`
(src/unnamed/part_004): required non-empty strings, `numberOfDays >= 1`,
bus-type enum, `1 <= numberOfPassengers <= 60` plus the capacity
cross-validator, `departureDate >= today`, `specialRequests` max length 500,
status enum, `estimatedPrice >= 0` when present (validators skip
absent optional paths). -/
def validQuote (today : Int) (q : Quote) : Bool :=
  q.pickupLocation ≠ "" && q.dropoffLocation ≠ "" &&
  1 ≤ q.numberOfDays &&
  (q.busType == "49-seater" || q.busType == "60-seater") &&
  1 ≤ q.numberOfPassengers && q.numberOfPassengers ≤ 60 &&
  (!(q.busType == "49-seater") || q.numberOfPassengers ≤ 49) &&
  (!(q.busType == "60-seater") || q.numberOfPassengers ≤ 60) &&
  today ≤ q.departureDate &&
  (match q.specialRequests with | none => true | some s => s.length ≤ 500) &&
  ["pending", "quoted", "approved", "rejected"].contains q.status &&
  (match q.estimatedPrice with | none => true | some p => 0 ≤ p)

/-- A state snapshot stored in an audit entry (`previousState` / `newState`).
The `email_sent` entries store the empty object, i.e. all fields absent. -/
structure HistorySnapshot where
  status : Option String
  estimatedPrice : Option Int
  adminNotes : Option String
deriving DecidableEq, Repr

/-- A `QuotationHistory` document, reduced to the fields written by
`submitQuotation` (the request-plumbing metadata `ipAddress`/`userAgent` is
not represented). -/
structure HistoryEntry where
  quoteId : Nat
  userId : Nat
  action : String
  previousState : HistorySnapshot
  newState : HistorySnapshot
  emailStatus : Option String
  emailMessageId : Option String
  comment : String
deriving DecidableEq, Repr

/-- Modelled from the spec: the `QuotationHistory` model file is absent from
the sources (only its call sites in `submitQuotation` are present).
Section 4.4 of the spec describes the Audit Log as "append(entry): pure
insert, no update path exposed", so `QuotationHistory.createEntry` is an
append to the history list. -/
def createEntry (history : List HistoryEntry) (e : HistoryEntry) : List HistoryEntry :=
  history ++ [e]

/-- A `Booking` document (src/src/models/Booking.js). -/
structure Booking where
  id : Nat
  quoteRequest : Nat
  userId : Nat
  pickupLocation : String
  dropoffLocation : String
  departureDate : Int
  returnDate : Option Int
  numberOfDays : Nat
  busType : String
  numberOfPassengers : Nat
  totalPrice : Int
  pricePerDay : Int
  status : String
  paymentStatus : String
  bookingType : String
  paymentMethod : Option String
  paymentDate : Option Int
  invoiceNumber : Option String
  specialRequests : Option String
  adminNotes : Option String
  cancellationReason : Option String
  cancelledAt : Option Int
  cancelledBy : Option Nat
deriving DecidableEq, Repr

/-- Mongoose validation of a `Booking` document, run by `save()`
(src/src/models/Booking.js schema): required non-empty strings,
`numberOfDays >= 1`, bus-type enum, `numberOfPassengers >= 1`,
non-negative prices, the three status enums, the payment-method enum when
present, `specialRequests` max length 1000. -/
def validBooking (b : Booking) : Bool :=
  b.pickupLocation ≠ "" && b.dropoffLocation ≠ "" &&
  1 ≤ b.numberOfDays &&
  (b.busType == "49-seater" || b.busType == "60-seater") &&
  1 ≤ b.numberOfPassengers &&
  0 ≤ b.totalPrice && 0 ≤ b.pricePerDay &&
  ["confirmed", "in-progress", "completed", "cancelled"].contains b.status &&
  ["pending", "partial", "paid", "refunded"].contains b.paymentStatus &&
  ["quotation", "confirmed", "paid"].contains b.bookingType &&
  (match b.paymentMethod with
   | none => true
   | some m => ["cash", "bank-transfer", "credit-card", "gcash", "paymaya"].contains m) &&
  (match b.specialRequests with | none => true | some s => s.length ≤ 1000)

/-- The booking schema's pre-save hook (src/src/models/Booking.js, lines
263-270): when `returnDate` is absent and `departureDate` and `numberOfDays`
are truthy, set `returnDate = departureDate + numberOfDays` days.
`departureDate` is a required `Date` object, hence always truthy here;
`numberOfDays` is a number, truthy iff nonzero. -/
def preSave (b : Booking) : Booking :=
  if b.returnDate = none ∧ b.numberOfDays ≠ 0 then
    { b with returnDate := some (b.departureDate + (b.numberOfDays : Int)) }
  else b

/-- Replace the document whose key equals `key u` by `u` (the persistence
effect of a successful `document.save()` / in-place update by id). -/
def replaceBy {α : Type} (key : α → Nat) (u : α) (l : List α) : List α :=
  l.map (fun x => if key x == key u then u else x)

/-- The document store: quote requests, bookings, the append-only
quotation-history log, and the id the store would assign to the next
created booking. -/
structure DB where
  quotes : List Quote
  bookings : List Booking
  history : List HistoryEntry
  nextId : Nat
deriving Repr

/-- Find a quote by id (`QuoteRequest.findById`). -/
def findQuote (db : DB) (qid : Nat) : Option Quote :=
  db.quotes.find? (fun q => q.id == qid)

/-- Find a booking by id (`Booking.findById`). -/
def findBooking (db : DB) (bid : Nat) : Option Booking :=
  db.bookings.find? (fun b => b.id == bid)

/-- Step 4 of `exports.submitQuotation` (src/unnamed/part_003, lines
262-266): `quote.status = 'quoted'; quote.estimatedPrice = estimatedPrice;
quote.adminNotes = adminNotes || quote.adminNotes` — the in-memory update
applied to the found quote before `quote.save()`. -/
def quotedUpdate (quote : Quote) (price : Int) (adminNotes : Option String) : Quote :=
  { quote with
    status := "quoted"
    estimatedPrice := some price
    adminNotes := if strTruthy adminNotes then adminNotes else quote.adminNotes }

/-- The distinct `res.status(...).json(...)` responses of
`exports.submitQuotation` (src/unnamed/part_003, lines 230-370). -/
inductive SubmitResponse where
  /-- 400 `{ success: false, message }`. -/
  | badRequest (message : String)
  /-- 404 `{ success: false, message }`. -/
  | notFound (message : String)
  /-- 500 `{ success: false, message }` from the handler's outer catch. -/
  | serverError (message : String)
  /-- 200 `{ success: true, data: { quote, emailSent: true, emailMessageId } }`. -/
  | okSent (quote : Quote) (emailMessageId : Option String)
  /-- 200 `{ success: true, data: { quote, emailSent: false, emailError }, warning }`. -/
  | okNotSent (quote : Quote) (emailError : String)
deriving DecidableEq, Repr

/-- `exports.submitQuotation` (src/unnamed/part_003, lines 230-370).
Steps, in source order: validate `!estimatedPrice || estimatedPrice <= 0`
(400); `findById` (404); snapshot previous state; set
`status = 'quoted'`, `estimatedPrice`, `adminNotes = adminNotes || existing`;
`quote.save()` (mongoose validation; a validation failure throws into the
outer catch → 500 with nothing persisted); append the `price_updated`
history entry; `await emailService.sendQuotationEmail(...)` — NOT wrapped in
a local try/catch, so a thrown transport error lands in the outer catch
(500) after the quote was already saved and the first entry appended;
otherwise append the `email_sent` entry and answer 200 according to
`emailResult.success`. -/
def submitQuotation (db : DB) (qid uid : Nat) (today : Int)
    (estimatedPrice : Option Int) (adminNotes : Option String)
    (transport : TransportResult) : DB × SubmitResponse :=
  match estimatedPrice with
  | none => (db, .badRequest "Please provide a valid estimated price")
  | some price =>
    if price ≤ 0 then (db, .badRequest "Please provide a valid estimated price")
    else
      match findQuote db qid with
      | none => (db, .notFound "Quote request not found")
      | some quote =>
        let previousState : HistorySnapshot :=
          { status := some quote.status, estimatedPrice := quote.estimatedPrice,
            adminNotes := quote.adminNotes }
        let updated : Quote := quotedUpdate quote price adminNotes
        if validQuote today updated then
          let db1 : DB :=
            { db with
              quotes := replaceBy Quote.id updated db.quotes
              history := createEntry db.history
                { quoteId := quote.id, userId := uid, action := "price_updated",
                  previousState := previousState,
                  newState := { status := some updated.status,
                                estimatedPrice := updated.estimatedPrice,
                                adminNotes := updated.adminNotes },
                  emailStatus := none, emailMessageId := none,
                  comment := "Admin submitted quotation" } }
          match sendQuotationEmail transport with
          | .error _ => (db1, .serverError "Error submitting quotation")
          | .ok emailResult =>
            let db2 : DB :=
              { db1 with
                history := createEntry db1.history
                  { quoteId := quote.id, userId := uid, action := "email_sent",
                    previousState := { status := none, estimatedPrice := none, adminNotes := none },
                    newState := { status := none, estimatedPrice := none, adminNotes := none },
                    emailStatus := some (if emailResult.success then "success" else "failed"),
                    emailMessageId := emailResult.messageId,
                    comment := if emailResult.success then
                        "Quotation email sent successfully"
                      else "Email failed: " ++ emailResult.message } }
            if emailResult.success then
              (db2, .okSent updated emailResult.messageId)
            else
              (db2, .okNotSent updated emailResult.message)
        else (db, .serverError "Error submitting quotation")

/-- The distinct `res.status(...).json(...)` responses of the booking
controller handlers (src/unnamed/part_002). -/
inductive BookingResponse where
  /-- 400 `{ success: false, message }`. -/
  | badRequest (message : String)
  /-- 404 `{ success: false, message }`. -/
  | notFound (message : String)
  /-- 500 `{ success: false, message }` from a handler's outer catch. -/
  | serverError (message : String)
  /-- 201 `{ success: true, message, data: booking }`. -/
  | created (booking : Booking)
  /-- 200 `{ success: true, message, data: booking }`. -/
  | ok (booking : Booking)
deriving DecidableEq, Repr

/-- The document handed to `Booking.create` by
`exports.createBookingFromQuotation` (src/unnamed/part_002, lines 160-176):
the trip fields copied from the quote, `pricePerDay = quote.estimatedPrice`,
`totalPrice = quote.estimatedPrice * quote.numberOfDays`, and the three
fixed statuses — with the schema's pre-save hook applied, which fills in
`returnDate`. -/
def bookingFromQuote (quote : Quote) (price : Int) (freshId : Nat) : Booking :=
  preSave
    { id := freshId, quoteRequest := quote.id, userId := quote.userId,
      pickupLocation := quote.pickupLocation,
      dropoffLocation := quote.dropoffLocation,
      departureDate := quote.departureDate, returnDate := none,
      numberOfDays := quote.numberOfDays, busType := quote.busType,
      numberOfPassengers := quote.numberOfPassengers,
      totalPrice := price * (quote.numberOfDays : Int), pricePerDay := price,
      status := "confirmed", paymentStatus := "pending",
      bookingType := "confirmed",
      paymentMethod := none, paymentDate := none, invoiceNumber := none,
      specialRequests := quote.specialRequests, adminNotes := quote.adminNotes,
      cancellationReason := none, cancelledAt := none, cancelledBy := none }

/-- `exports.createBookingFromQuotation` (src/unnamed/part_002, lines
127-192): `findById` the quote (404); require `status === 'approved'` (400);
`Booking.findOne({ quoteRequest })` duplicate check (400); then
`Booking.create({...})` copying the trip fields, with
`pricePerDay = quote.estimatedPrice` and
`totalPrice = quote.estimatedPrice * quote.numberOfDays`.
`create` is new-document validation plus the pre-save hook; a missing
`estimatedPrice` violates the required `pricePerDay` path, and any schema
violation throws into the outer catch (500, nothing stored). -/
def createBookingFromQuotation (db : DB) (quoteRequestId : Nat) : DB × BookingResponse :=
  match findQuote db quoteRequestId with
  | none => (db, .notFound "Quote request not found")
  | some quote =>
    if quote.status ≠ "approved" then
      (db, .badRequest "Quote must be approved before creating booking")
    else
      match db.bookings.find? (fun b => b.quoteRequest == quoteRequestId) with
      | some _ => (db, .badRequest "Booking already exists for this quotation")
      | none =>
        match quote.estimatedPrice with
        | none => (db, .serverError "Error creating booking")
        | some price =>
          if validBooking (bookingFromQuote quote price db.nextId) then
            ({ db with
                bookings := db.bookings ++ [bookingFromQuote quote price db.nextId],
                nextId := db.nextId + 1 },
             .created (bookingFromQuote quote price db.nextId))
          else (db, .serverError "Error creating booking")

/-- The guarded assignment `if (status) booking.status = status` of
`exports.updateBookingStatus` (src/unnamed/part_002, line 210): a falsy
`status` (absent or empty string) leaves the field unchanged. -/
def applyStatus (b : Booking) (status : Option String) : Booking :=
  if strTruthy status then { b with status := status.getD "" } else b

/-- The guarded assignment `if (adminNotes) booking.adminNotes = adminNotes`
of `exports.updateBookingStatus` (src/unnamed/part_002, line 211). -/
def applyNotes (b : Booking) (adminNotes : Option String) : Booking :=
  if strTruthy adminNotes then { b with adminNotes := adminNotes } else b

/-- `exports.updateBookingStatus` (src/unnamed/part_002, lines 197-228):
`findById` (404); `if (status) booking.status = status;
if (adminNotes) booking.adminNotes = adminNotes; await booking.save()`.
The save validates the document and runs the pre-save hook; a validation
failure throws into the outer catch (500, nothing persisted). -/
def updateBookingStatus (db : DB) (bid : Nat)
    (status adminNotes : Option String) : DB × BookingResponse :=
  match findBooking db bid with
  | none => (db, .notFound "Booking not found")
  | some booking =>
    if validBooking (applyNotes (applyStatus booking status) adminNotes) then
      ({ db with
          bookings := replaceBy Booking.id
            (preSave (applyNotes (applyStatus booking status) adminNotes))
            db.bookings },
       .ok (preSave (applyNotes (applyStatus booking status) adminNotes)))
    else (db, .serverError "Error updating booking")

/-- `bookingSchema.methods.cancel` (src/src/models/Booking.js, lines
252-259): set `status = 'cancelled'`, `cancellationReason = reason`,
`cancelledAt = now`, `cancelledBy = userId`, then `save()` — the pre-save
hook part of the save; validation is applied at the call site model. -/
def Booking.cancel (b : Booking) (userId : Nat) (reason : Option String)
    (now : Int) : Booking :=
  preSave { b with status := "cancelled", cancellationReason := reason,
                   cancelledAt := some now, cancelledBy := some userId }

/-- `exports.cancelBooking` (src/unnamed/part_002, lines 271-306):
`findById` (404); reject with 400 `'Booking is already cancelled'` when
`booking.status === 'cancelled'`; otherwise `booking.cancel(userId, reason)`
whose `save()` validates and persists (a validation failure throws into the
outer catch: 500, nothing persisted). -/
def cancelBooking (db : DB) (bid uid : Nat) (reason : Option String)
    (now : Int) : DB × BookingResponse :=
  match findBooking db bid with
  | none => (db, .notFound "Booking not found")
  | some booking =>
    if booking.status == "cancelled" then
      (db, .badRequest "Booking is already cancelled")
    else
      let cancelled := Booking.cancel booking uid reason now
      if validBooking cancelled then
        ({ db with bookings := replaceBy Booking.id cancelled db.bookings }, .ok cancelled)
      else (db, .serverError "Error cancelling booking")

/-- One element of the array returned by
`bookingSchema.statics.getCalendarEvents` (src/src/models/Booking.js, lines
223-238). The source's `end` field is `endDate` here (`end` is a Lean
keyword); `resource` is flattened into the three fields the source puts in
it besides the booking itself. -/
structure CalendarEvent where
  id : Nat
  title : String
  start : Int
  endDate : Int
  resourceBookingType : String
  resourceStatus : String
  resourcePaymentStatus : String
deriving DecidableEq, Repr

/-- The mongo sort key `{ departureDate: 1 }` as a relation on bookings. -/
def byDeparture (a b : Booking) : Prop := a.departureDate ≤ b.departureDate

instance : DecidableRel byDeparture := fun _ _ => Int.decLe _ _

instance : IsTotal Booking byDeparture := ⟨fun _ _ => Int.le_total _ _⟩

instance : IsTrans Booking byDeparture := ⟨fun _ _ _ => Int.le_trans⟩

/-- `bookingSchema.statics.getByDateRange` (src/src/models/Booking.js, lines
209-219): `find({ departureDate: { $gte: start, $lte: end } })` sorted by
`departureDate` ascending. -/
def getByDateRange (bookings : List Booking) (startDate endDate : Int) : List Booking :=
  List.insertionSort byDeparture
    (bookings.filter (fun b => startDate ≤ b.departureDate && b.departureDate ≤ endDate))

/-- `bookingSchema.statics.getCalendarEvents` (src/src/models/Booking.js,
lines 223-238): map each booking in range to an event; `title` is
`'<firstName> <lastName> - <busType>'` from the populated user, and `end` is
`returnDate` when truthy, else `departureDate`. `users` resolves the
required `user` reference (the populate step). -/
def bookingCalendarEvents (bookings : List Booking) (users : Nat → User)
    (startDate endDate : Int) : List CalendarEvent :=
  (getByDateRange bookings startDate endDate).map (fun b =>
    { id := b.id,
      title := (users b.userId).firstName ++ " " ++ (users b.userId).lastName
                 ++ " - " ++ b.busType,
      start := b.departureDate,
      endDate := match b.returnDate with | some r => r | none => b.departureDate,
      resourceBookingType := b.bookingType,
      resourceStatus := b.status,
      resourcePaymentStatus := b.paymentStatus })

/-- The responses of `exports.getCalendarEvents`. -/
inductive CalendarResponse where
  /-- 400 `{ success: false, message }`. -/
  | badRequest (message : String)
  /-- 200 `{ success: true, count, data: events }`. -/
  | ok (events : List CalendarEvent)
deriving DecidableEq, Repr

/-- `exports.getCalendarEvents` (src/unnamed/part_002, lines 63-91): reject
with 400 `'Start and end dates are required'` when `!start || !end` (an
absent query parameter), otherwise answer 200 with
`Booking.getCalendarEvents(start, end)`. No other check is made on the
bounds. -/
def getCalendarEvents (db : DB) (users : Nat → User)
    (startQ endQ : Option Int) : CalendarResponse :=
  match startQ, endQ with
  | some s, some e => .ok (bookingCalendarEvents db.bookings users s e)
  | _, _ => .badRequest "Start and end dates are required"

/-! ## Helper lemmas about the store -/

/-- Replacing the stored document that a `find?` by id located makes the
subsequent `find?` by the same id return the replacement. -/
theorem find?_replaceBy {α : Type} (key : α → Nat) (u : α) (l : List α)
    (k : Nat) (q : α)
    (hfind : l.find? (fun x => key x == k) = some q) (hu : key u = key q) :
    (replaceBy key u l).find? (fun x => key x == k) = some u := by
  have hq : key q = k := by
    have h := List.find?_some hfind
    simpa only [beq_iff_eq] using h
  induction l with
  | nil => simp at hfind
  | cons a t ih =>
    unfold replaceBy at ih ⊢
    cases h : (key a == k) with
    | true =>
      simp only [List.find?_cons, h] at hfind
      obtain rfl : a = q := by injection hfind
      have h2 : (key a == key u) = true := by rw [hu]; simp
      have h3 : (key u == k) = true := by rw [hu, hq]; simp
      simp only [List.map_cons, h2, eq_self_iff_true, if_true,
        List.find?_cons, h3]
    | false =>
      simp only [List.find?_cons, h] at hfind
      have h2 : (key a == key u) = false := by rw [hu, hq]; exact h
      simp only [List.map_cons, h2, Bool.false_eq_true, if_false,
        List.find?_cons, h]
      exact ih hfind

/-- `find?` skips a prefix in which it found nothing. -/
theorem find?_append_of_none {α : Type} (p : α → Bool) (l l' : List α)
    (h : l.find? p = none) : (l ++ l').find? p = l'.find? p := by
  rw [List.find?_append, h]
  rfl

/-- The pre-save hook touches only `returnDate`. -/
theorem preSave_eq_update_returnDate (b : Booking) :
    preSave b = { b with returnDate := (preSave b).returnDate } := by
  unfold preSave; split <;> rfl

/-- The pre-save hook is the identity on a document that already carries a
`returnDate`. -/
theorem preSave_of_returnDate_present (b : Booking) (h : b.returnDate ≠ none) :
    preSave b = b := by
  unfold preSave
  rw [if_neg]
  intro hc
  exact h hc.1

/-! ## Concrete fixtures -/

/-- A freshly created quote request (Manila → Baguio, 3 days, 49-seater,
45 passengers, departure day 100), as the `createQuote` handler stores it. -/
def pendingQuote : Quote :=
  { id := 1, userId := 9, pickupLocation := "Manila", dropoffLocation := "Baguio",
    numberOfDays := 3, busType := "49-seater", numberOfPassengers := 45,
    departureDate := 100, specialRequests := none, status := "pending",
    estimatedPrice := none, adminNotes := none }

/-- A store holding just `pendingQuote`, with an empty audit log. -/
def quoteDB : DB := { quotes := [pendingQuote], bookings := [], history := [], nextId := 0 }

/-! ## Claim C1 -/

/-- Claim C1 (code bug exhibited): on an existing quote with
`estimatedPrice = 15000 > 0`, a transport failure makes
`emailService.sendQuotationEmail` throw, and `submitQuotation` — whose call
site has no local try/catch — answers with the outer catch's
500 `{ success: false, message: 'Error submitting quotation' }` instead of
the documented 200 success response with `emailSent: false`. -/
theorem submitQuotation_email_throw_aborts_operation :
    (submitQuotation quoteDB 1 7 0 (some 15000) none
        (.err "ECONNREFUSED")).2
      = .serverError "Error submitting quotation" := by rfl

/-! ## Claim C2 -/

/-- Claim C2 (code bug exhibited): starting from an empty audit log, a call
whose email send succeeds appends the two entries `price_updated` then
`email_sent`, but a call whose email send fails (the service throws on any
transport failure) appends only `price_updated` — the second audit entry is
skipped because the thrown error lands in the handler's outer catch. -/
theorem submitQuotation_audit_entries_by_email_outcome :
    ((submitQuotation quoteDB 1 7 0 (some 15000) none
          (.ok "msg-id-1")).1.history.map (fun e => e.action)
        = ["price_updated", "email_sent"]) ∧
    ((submitQuotation quoteDB 1 7 0 (some 15000) none
          (.err "ECONNREFUSED")).1.history.map (fun e => e.action)
        = ["price_updated"]) := by
  exact ⟨rfl, rfl⟩

/-! ## Claim C4 -/

/-- Claim C4: a `submitQuotation` call whose `estimatedPrice` is absent,
zero or negative is rejected with the
400 `'Please provide a valid estimated price'` response and the store is
returned untouched — no status/price/notes change and no audit entry. -/
theorem submitQuotation_invalid_price_rejected_without_mutation
    (db : DB) (qid uid : Nat) (today : Int) (price? : Option Int)
    (notes : Option String) (transport : TransportResult)
    (h : ∀ p, price? = some p → p ≤ 0) :
    submitQuotation db qid uid today price? notes transport
      = (db, .badRequest "Please provide a valid estimated price") := by
  cases price? with
  | none => rfl
  | some p =>
    have hp : p ≤ 0 := h p rfl
    simp only [submitQuotation]
    rw [if_pos hp]

/-- Claim C4 witness: the theorem applied at `estimatedPrice = 0` on the
concrete store. -/
theorem submitQuotation_invalid_price_rejected_without_mutation_witness :
    submitQuotation quoteDB 1 7 0 (some 0) none (.ok "msg-id-1")
      = (quoteDB, .badRequest "Please provide a valid estimated price") :=
  submitQuotation_invalid_price_rejected_without_mutation quoteDB 1 7 0
    (some 0) none (.ok "msg-id-1")
    (by intro p hp; injection hp with h2; omega)

/-! ## Claim C7 -/

/-- Claim C7: saving a booking with no `returnDate` but a `departureDate`
and a (schema-valid, hence nonzero) `numberOfDays` stores
`returnDate = departureDate + numberOfDays` days; a booking that already
carries a `returnDate` passes through the pre-save hook unchanged. -/
theorem booking_returnDate_defaulting (b : Booking)
    (hdays : 1 ≤ b.numberOfDays) :
    (b.returnDate = none →
      (preSave b).returnDate = some (b.departureDate + (b.numberOfDays : Int))) ∧
    (∀ d, b.returnDate = some d → preSave b = b) := by
  constructor
  · intro h
    unfold preSave
    rw [if_pos ⟨h, by omega⟩]
  · intro d h
    exact preSave_of_returnDate_present b (by rw [h]; exact Option.noConfusion)

/-- A concrete booking as saved for `pendingQuote` priced at 15000, but with
`returnDate` still absent. -/
def bookingNoReturn : Booking :=
  { id := 5, quoteRequest := 1, userId := 9, pickupLocation := "Manila",
    dropoffLocation := "Baguio", departureDate := 100, returnDate := none,
    numberOfDays := 3, busType := "49-seater", numberOfPassengers := 45,
    totalPrice := 45000, pricePerDay := 15000, status := "confirmed",
    paymentStatus := "pending", bookingType := "confirmed",
    paymentMethod := none, paymentDate := none, invoiceNumber := none,
    specialRequests := none, adminNotes := none,
    cancellationReason := none, cancelledAt := none, cancelledBy := none }

/-- `bookingNoReturn` with an explicitly supplied `returnDate`. -/
def bookingWithReturn : Booking := { bookingNoReturn with returnDate := some 110 }

/-! ## Claims C3 and C9 -/

/-- A schema-valid quote stays schema-valid after step 4 of
`submitQuotation` (status becomes the valid enum value `'quoted'`, the
price becomes a non-negative number, notes have no validator). -/
theorem validQuote_quotedUpdate (today : Int) (q : Quote) (price : Int)
    (notes : Option String)
    (h : validQuote today q = true) (hp : 0 ≤ price) :
    validQuote today (quotedUpdate q price notes) = true := by
  simp only [validQuote, quotedUpdate, Bool.and_eq_true, decide_eq_true_eq] at h ⊢
  exact ⟨⟨h.1.1, by decide⟩, hp⟩

/-- After a `submitQuotation` call that found the quote, passed the price
guard and saved, the stored quotes are the original ones with the found
quote replaced by its step-4 update — whatever the email transport then
does. -/
theorem submitQuotation_quotes_saved (db : DB) (qid uid : Nat) (today : Int)
    (price : Int) (notes : Option String) (transport : TransportResult)
    (quote : Quote)
    (hfind : findQuote db qid = some quote) (hp : 0 < price)
    (hvq : validQuote today quote = true) :
    (submitQuotation db qid uid today (some price) notes transport).1.quotes
      = replaceBy Quote.id (quotedUpdate quote price notes) db.quotes := by
  have hvalid : validQuote today (quotedUpdate quote price notes) = true :=
    validQuote_quotedUpdate today quote price notes hvq (le_of_lt hp)
  simp only [submitQuotation, hfind]
  rw [if_neg (by omega : ¬ price ≤ 0)]
  rw [if_pos hvalid]
  cases transport with
  | ok mid => simp [sendQuotationEmail]
  | err e => simp [sendQuotationEmail]

/-- Claim C3: when `submitQuotation` passes validation and persists, the
stored quote has `status = 'quoted'` and the new `estimatedPrice`, and this
persisted state is kept for every email-transport outcome — in particular a
transport failure after the save (which aborts the handler through its
outer catch) does not roll the quote back. -/
theorem submitQuotation_persists_price_regardless_of_email
    (db : DB) (qid uid : Nat) (today : Int) (price : Int)
    (notes : Option String) (transport : TransportResult) (quote : Quote)
    (hfind : findQuote db qid = some quote) (hp : 0 < price)
    (hvq : validQuote today quote = true) :
    findQuote (submitQuotation db qid uid today (some price) notes transport).1 qid
      = some (quotedUpdate quote price notes) := by
  unfold findQuote
  rw [submitQuotation_quotes_saved db qid uid today price notes transport quote
    hfind hp hvq]
  exact find?_replaceBy Quote.id (quotedUpdate quote price notes) db.quotes qid
    quote hfind rfl

/-- Claim C3 witness: the theorem applied to the concrete store at price
15000 with a failing transport; the persisted quote is `'quoted'` at the
new price even though the operation aborted on the email step. -/
theorem submitQuotation_persists_price_regardless_of_email_witness :
    findQuote (submitQuotation quoteDB 1 7 0 (some 15000) none
        (.err "ECONNREFUSED")).1 1
      = some (quotedUpdate pendingQuote 15000 none) :=
  submitQuotation_persists_price_regardless_of_email quoteDB 1 7 0 15000 none
    (.err "ECONNREFUSED") pendingQuote rfl (by decide) (by decide)

/-- Claim C9: `submitQuotation` never inspects the quote's current status:
for every existing quote — whatever its status, including `'approved'` and
`'rejected'` — and every positive price, a successful call answers
`emailSent: true` carrying the quote updated to `status = 'quoted'`, and
that update is what gets persisted. -/
theorem submitQuotation_no_status_precondition
    (db : DB) (qid uid : Nat) (today : Int) (price : Int)
    (notes : Option String) (mid : String) (quote : Quote)
    (hfind : findQuote db qid = some quote) (hp : 0 < price)
    (hvq : validQuote today quote = true) :
    (submitQuotation db qid uid today (some price) notes (.ok mid)).2
        = .okSent (quotedUpdate quote price notes) (some mid) ∧
    (quotedUpdate quote price notes).status = "quoted" ∧
    findQuote (submitQuotation db qid uid today (some price) notes (.ok mid)).1 qid
        = some (quotedUpdate quote price notes) := by
  have hvalid : validQuote today (quotedUpdate quote price notes) = true :=
    validQuote_quotedUpdate today quote price notes hvq (le_of_lt hp)
  refine ⟨?_, rfl, ?_⟩
  · simp only [submitQuotation, hfind]
    rw [if_neg (by omega : ¬ price ≤ 0)]
    rw [if_pos hvalid]
    simp [sendQuotationEmail]
  · unfold findQuote
    rw [submitQuotation_quotes_saved db qid uid today price notes (.ok mid)
      quote hfind hp hvq]
    exact find?_replaceBy Quote.id (quotedUpdate quote price notes) db.quotes
      qid quote hfind rfl

/-- An approved quote, as left by the admin approval action. -/
def approvedQuote : Quote :=
  { pendingQuote with status := "approved", estimatedPrice := some 15000 }

/-- A store holding just `approvedQuote`. -/
def approvedQuoteDB : DB :=
  { quotes := [approvedQuote], bookings := [], history := [], nextId := 5 }

/-- Claim C9 witness: the theorem applied to a quote whose status is
`'approved'`; the successful call moves it back to `'quoted'`. -/
theorem submitQuotation_no_status_precondition_witness :
    (submitQuotation approvedQuoteDB 1 7 0 (some 20000) none (.ok "msg-id-2")).2
        = .okSent (quotedUpdate approvedQuote 20000 none) (some "msg-id-2") ∧
    (quotedUpdate approvedQuote 20000 none).status = "quoted" ∧
    findQuote (submitQuotation approvedQuoteDB 1 7 0 (some 20000) none
        (.ok "msg-id-2")).1 1
      = some (quotedUpdate approvedQuote 20000 none) :=
  submitQuotation_no_status_precondition approvedQuoteDB 1 7 0 20000 none
    "msg-id-2" approvedQuote rfl (by decide) (by decide)

/-- Claim C7 witness: the theorem applied to a concrete booking without and
with an explicit `returnDate`. -/
theorem booking_returnDate_defaulting_witness :
    ((preSave bookingNoReturn).returnDate
        = some (bookingNoReturn.departureDate + (bookingNoReturn.numberOfDays : Int))) ∧
    preSave bookingWithReturn = bookingWithReturn :=
  ⟨(booking_returnDate_defaulting bookingNoReturn (by decide)).1 rfl,
    (booking_returnDate_defaulting bookingWithReturn (by decide)).2 110 rfl⟩

/-! ## Claim C6 -/

/-- Projection of the pre-save hook: the id is untouched. -/
theorem preSave_id (b : Booking) : (preSave b).id = b.id := by
  unfold preSave; split <;> rfl

/-- Projection of the pre-save hook: the quote reference is untouched. -/
theorem preSave_quoteRequest (b : Booking) :
    (preSave b).quoteRequest = b.quoteRequest := by
  unfold preSave; split <;> rfl

/-- The fields written by `Booking.cancel`, read back after the pre-save
hook, plus the untouched id. -/
theorem cancel_fields (b : Booking) (uid : Nat) (reason : Option String)
    (now : Int) :
    (Booking.cancel b uid reason now).status = "cancelled" ∧
    (Booking.cancel b uid reason now).cancellationReason = reason ∧
    (Booking.cancel b uid reason now).cancelledAt = some now ∧
    (Booking.cancel b uid reason now).cancelledBy = some uid ∧
    (Booking.cancel b uid reason now).id = b.id := by
  unfold Booking.cancel preSave
  split <;> exact ⟨rfl, rfl, rfl, rfl, rfl⟩

/-- A schema-valid booking stays schema-valid through `Booking.cancel`
(`'cancelled'` is a valid status enum value; the cancellation fields and
`returnDate` have no validators). -/
theorem validBooking_cancel (b : Booking) (uid : Nat) (reason : Option String)
    (now : Int) (h : validBooking b = true) :
    validBooking (Booking.cancel b uid reason now) = true := by
  unfold Booking.cancel preSave
  split <;>
  · simp only [validBooking, Bool.and_eq_true, decide_eq_true_eq] at h ⊢
    obtain ⟨⟨⟨⟨⟨hE, _⟩, h9⟩, h10⟩, h11⟩, h12⟩ := h
    exact ⟨⟨⟨⟨⟨hE, by decide⟩, h9⟩, h10⟩, h11⟩, h12⟩

/-- Claim C6: cancelling an already-cancelled booking answers the
400 `'Booking is already cancelled'` conflict and leaves the store — hence
the first cancellation's `cancelledAt`/`cancelledBy`/`cancellationReason` —
untouched; cancelling a non-cancelled (schema-valid) booking persists
`status = 'cancelled'` with the given reason, `cancelledAt = now` and
`cancelledBy` the acting user. -/
theorem cancelBooking_conflict_and_effects (db : DB) (bid uid : Nat)
    (reason : Option String) (now : Int) (booking : Booking)
    (hfind : findBooking db bid = some booking)
    (hvalid : validBooking booking = true) :
    (booking.status = "cancelled" →
      cancelBooking db bid uid reason now
        = (db, .badRequest "Booking is already cancelled")) ∧
    (booking.status ≠ "cancelled" →
      findBooking (cancelBooking db bid uid reason now).1 bid
          = some (Booking.cancel booking uid reason now) ∧
      (Booking.cancel booking uid reason now).status = "cancelled" ∧
      (Booking.cancel booking uid reason now).cancellationReason = reason ∧
      (Booking.cancel booking uid reason now).cancelledAt = some now ∧
      (Booking.cancel booking uid reason now).cancelledBy = some uid) := by
  constructor
  · intro h
    unfold cancelBooking
    simp [hfind, h]
  · intro hne
    have hbeq : (booking.status == "cancelled") = false := by
      simp [hne]
    unfold cancelBooking
    simp only [hfind, hbeq, Bool.false_eq_true, if_false]
    rw [if_pos (validBooking_cancel booking uid reason now hvalid)]
    obtain ⟨h1, h2, h3, h4, h5⟩ := cancel_fields booking uid reason now
    exact ⟨find?_replaceBy Booking.id _ db.bookings bid booking hfind h5,
      h1, h2, h3, h4⟩

/-- A store holding one confirmed booking (id 5, for quote 1). -/
def confirmedBookingDB : DB :=
  { quotes := [], bookings := [bookingWithReturn], history := [], nextId := 6 }

/-- `confirmedBookingDB` after the first cancellation (user 7, day 50). -/
def cancelledBookingDB : DB :=
  (cancelBooking confirmedBookingDB 5 7 (some "client request") 50).1

/-- Claim C6 witness: the theorem applied to a concrete cancelled booking
(conflict branch) and to a concrete confirmed booking (effect branch). -/
theorem cancelBooking_conflict_and_effects_witness :
    (cancelBooking cancelledBookingDB 5 8 (some "again") 60
        = (cancelledBookingDB, .badRequest "Booking is already cancelled")) ∧
    (findBooking (cancelBooking confirmedBookingDB 5 7 (some "client request") 50).1 5
        = some (Booking.cancel bookingWithReturn 7 (some "client request") 50) ∧
      (Booking.cancel bookingWithReturn 7 (some "client request") 50).status
        = "cancelled" ∧
      (Booking.cancel bookingWithReturn 7 (some "client request") 50).cancellationReason
        = some "client request" ∧
      (Booking.cancel bookingWithReturn 7 (some "client request") 50).cancelledAt
        = some 50 ∧
      (Booking.cancel bookingWithReturn 7 (some "client request") 50).cancelledBy
        = some 7) :=
  ⟨(cancelBooking_conflict_and_effects cancelledBookingDB 5 8 (some "again") 60
      (Booking.cancel bookingWithReturn 7 (some "client request") 50)
      (by decide) (by decide)).1 (by decide),
    (cancelBooking_conflict_and_effects confirmedBookingDB 5 7
      (some "client request") 50 bookingWithReturn rfl (by decide)).2
      (by decide)⟩

/-! ## Claim C5 -/

/-- The booking handed to `Booking.create` references the source quote. -/
theorem bookingFromQuote_quoteRequest (quote : Quote) (price : Int)
    (freshId : Nat) :
    (bookingFromQuote quote price freshId).quoteRequest = quote.id := by
  unfold bookingFromQuote
  rw [preSave_quoteRequest]

/-- Inversion of a successful `createBookingFromQuotation`: a 201 response
means the quote was found and approved, no booking referenced the quote
yet, the created booking references it, and the store gained exactly that
booking. -/
theorem createBookingFromQuotation_created_inv (db : DB) (qid : Nat)
    (b : Booking)
    (hb : (createBookingFromQuotation db qid).2 = .created b) :
    b.quoteRequest = qid ∧
    db.bookings.find? (fun x => x.quoteRequest == qid) = none ∧
    (createBookingFromQuotation db qid).1
      = { db with bookings := db.bookings ++ [b], nextId := db.nextId + 1 } ∧
    ∃ quote, findQuote db qid = some quote ∧ quote.status = "approved" := by
  unfold createBookingFromQuotation at hb ⊢
  split at hb
  next => simp at hb
  next quote hq =>
    have hqid : quote.id = qid := by
      have hq' : db.quotes.find? (fun q => q.id == qid) = some quote := hq
      have h := List.find?_some hq'
      simpa only [beq_iff_eq] using h
    split at hb
    next => simp at hb
    next hnn =>
      split at hb
      next x hx => simp at hb
      next hnone =>
        split at hb
        next => simp at hb
        next price hprice =>
          split at hb
          next hvalid =>
            simp only [BookingResponse.created.injEq] at hb
            subst hb
            refine ⟨?_, ?_, ?_, quote, ?_, not_not.mp hnn⟩
            · rw [bookingFromQuote_quoteRequest]
              exact hqid
            · exact hnone
            · simp [hvalid, not_not.mp hnn]
            · exact hq
          next => simp at hb

/-- Claim C5: `createBookingFromQuotation` creates a booking only for an
existing approved quote with no booking yet: a found non-approved quote is
rejected with the 400 validation response and the store is untouched, and
after a successful creation a second call on the same quote is rejected
with the 400 `'Booking already exists for this quotation'` conflict, the
store is untouched by it, and exactly one stored booking references the
quote. -/
theorem createBookingFromQuotation_guards (db : DB) (qid : Nat) :
    (∀ q, findQuote db qid = some q → q.status ≠ "approved" →
      createBookingFromQuotation db qid
        = (db, .badRequest "Quote must be approved before creating booking")) ∧
    (∀ b, (createBookingFromQuotation db qid).2 = .created b →
      (createBookingFromQuotation (createBookingFromQuotation db qid).1 qid).2
          = .badRequest "Booking already exists for this quotation" ∧
      (createBookingFromQuotation (createBookingFromQuotation db qid).1 qid).1
          = (createBookingFromQuotation db qid).1 ∧
      ((createBookingFromQuotation db qid).1.bookings.filter
          (fun bk => bk.quoteRequest == qid)).length = 1) := by
  constructor
  · intro q hq hst
    unfold createBookingFromQuotation
    simp only [hq]
    rw [if_pos hst]
  · intro b hb
    obtain ⟨hbq, hnone, hdb1, quote, hq, hst⟩ :=
      createBookingFromQuotation_created_inv db qid b hb
    have hfq : findQuote
        { db with bookings := db.bookings ++ [b], nextId := db.nextId + 1 } qid
        = some quote := hq
    have hfd : (db.bookings ++ [b]).find?
        (fun x => x.quoteRequest == qid) = some b := by
      rw [find?_append_of_none _ _ _ hnone]
      simp [List.find?_cons, hbq]
    have hfilter : db.bookings.filter (fun x => x.quoteRequest == qid) = [] := by
      rw [List.filter_eq_nil_iff]
      exact List.find?_eq_none.mp hnone
    refine ⟨?_, ?_, ?_⟩
    · rw [hdb1]
      unfold createBookingFromQuotation
      simp only [hfq]
      rw [if_neg (by simp [hst])]
      simp only [hfd]
    · rw [hdb1]
      unfold createBookingFromQuotation
      simp only [hfq]
      rw [if_neg (by simp [hst])]
      simp only [hfd]
    · rw [hdb1]
      show ((db.bookings ++ [b]).filter (fun bk => bk.quoteRequest == qid)).length = 1
      rw [List.filter_append, hfilter]
      simp [List.filter, hbq]

/-- Claim C5 witness: the theorem applied to the concrete pending quote
(rejection branch) and to the concrete approved quote (duplicate branch). -/
theorem createBookingFromQuotation_guards_witness :
    (createBookingFromQuotation quoteDB 1
        = (quoteDB, .badRequest "Quote must be approved before creating booking")) ∧
    ((createBookingFromQuotation (createBookingFromQuotation approvedQuoteDB 1).1 1).2
        = .badRequest "Booking already exists for this quotation" ∧
      (createBookingFromQuotation (createBookingFromQuotation approvedQuoteDB 1).1 1).1
        = (createBookingFromQuotation approvedQuoteDB 1).1 ∧
      ((createBookingFromQuotation approvedQuoteDB 1).1.bookings.filter
          (fun bk => bk.quoteRequest == 1)).length = 1) :=
  ⟨(createBookingFromQuotation_guards quoteDB 1).1 pendingQuote rfl (by decide),
    (createBookingFromQuotation_guards approvedQuoteDB 1).2 _ rfl⟩

/-! ## Claim C10 -/

/-- Agreement of two bookings on every field other than `status` and
`adminNotes`. -/
def sameExceptStatusNotes (old new : Booking) : Prop :=
  new.id = old.id ∧ new.quoteRequest = old.quoteRequest ∧
  new.userId = old.userId ∧ new.pickupLocation = old.pickupLocation ∧
  new.dropoffLocation = old.dropoffLocation ∧
  new.departureDate = old.departureDate ∧ new.returnDate = old.returnDate ∧
  new.numberOfDays = old.numberOfDays ∧ new.busType = old.busType ∧
  new.numberOfPassengers = old.numberOfPassengers ∧
  new.totalPrice = old.totalPrice ∧ new.pricePerDay = old.pricePerDay ∧
  new.paymentStatus = old.paymentStatus ∧ new.bookingType = old.bookingType ∧
  new.paymentMethod = old.paymentMethod ∧ new.paymentDate = old.paymentDate ∧
  new.invoiceNumber = old.invoiceNumber ∧
  new.specialRequests = old.specialRequests ∧
  new.cancellationReason = old.cancellationReason ∧
  new.cancelledAt = old.cancelledAt ∧ new.cancelledBy = old.cancelledBy

/-- The two guarded assignments touch nothing outside `status` and
`adminNotes`. -/
theorem applyStatusNotes_frame (b : Booking) (status adminNotes : Option String) :
    sameExceptStatusNotes b (applyNotes (applyStatus b status) adminNotes) := by
  unfold applyStatus applyNotes sameExceptStatusNotes
  split <;> split <;> exact ⟨rfl, rfl, rfl, rfl, rfl, rfl, rfl, rfl, rfl, rfl,
    rfl, rfl, rfl, rfl, rfl, rfl, rfl, rfl, rfl, rfl, rfl⟩

/-- A falsy `status` leaves the status unchanged through the guarded
assignments. -/
theorem applyStatusNotes_status (b : Booking) (status adminNotes : Option String)
    (h : strTruthy status = false) :
    (applyNotes (applyStatus b status) adminNotes).status = b.status := by
  unfold applyStatus applyNotes
  simp only [h, Bool.false_eq_true, if_false]
  split <;> rfl

/-- A falsy `adminNotes` leaves the notes unchanged through the guarded
assignments. -/
theorem applyStatusNotes_notes (b : Booking) (status adminNotes : Option String)
    (h : strTruthy adminNotes = false) :
    (applyNotes (applyStatus b status) adminNotes).adminNotes = b.adminNotes := by
  unfold applyStatus applyNotes
  rw [if_neg (by rw [h]; exact Bool.false_ne_true)]
  split <;> rfl

/-- Claim C10: `updateBookingStatus` on a stored booking (every persisted
booking carries a `returnDate`, filled in by the pre-save hook at creation)
changes at most `status` and `adminNotes`: the stored booking after the call
agrees with the old one on every other field, and a falsy supplied value
(absent or empty string) leaves the corresponding field unchanged — in
particular `adminNotes` cannot be cleared to the empty string. This also
covers the save-validation failure, which persists nothing. -/
theorem updateBookingStatus_frame (db : DB) (bid : Nat)
    (status adminNotes : Option String) (booking : Booking)
    (hfind : findBooking db bid = some booking)
    (hret : booking.returnDate ≠ none) :
    ∃ b2, findBooking (updateBookingStatus db bid status adminNotes).1 bid
        = some b2 ∧
      sameExceptStatusNotes booking b2 ∧
      (strTruthy status = false → b2.status = booking.status) ∧
      (strTruthy adminNotes = false → b2.adminNotes = booking.adminNotes) := by
  have hframe := applyStatusNotes_frame booking status adminNotes
  have hret2 : (applyNotes (applyStatus booking status) adminNotes).returnDate
      ≠ none := by
    rw [hframe.2.2.2.2.2.2.1]
    exact hret
  unfold updateBookingStatus
  simp only [hfind]
  split
  next hv =>
    rw [preSave_of_returnDate_present _ hret2]
    refine ⟨applyNotes (applyStatus booking status) adminNotes,
      find?_replaceBy Booking.id _ db.bookings bid booking hfind hframe.1,
      hframe, ?_, ?_⟩
    · intro h
      exact applyStatusNotes_status booking status adminNotes h
    · intro h
      exact applyStatusNotes_notes booking status adminNotes h
  next hv =>
    refine ⟨booking, hfind, ?_, fun _ => rfl, fun _ => rfl⟩
    unfold sameExceptStatusNotes
    exact ⟨rfl, rfl, rfl, rfl, rfl, rfl, rfl, rfl, rfl, rfl, rfl, rfl, rfl,
      rfl, rfl, rfl, rfl, rfl, rfl, rfl, rfl⟩

/-- Claim C10 witness: the theorem applied to the concrete confirmed booking
with both fields supplied as the falsy empty string. -/
theorem updateBookingStatus_frame_witness :
    ∃ b2, findBooking
        (updateBookingStatus confirmedBookingDB 5 (some "") (some "")).1 5
        = some b2 ∧
      sameExceptStatusNotes bookingWithReturn b2 ∧
      (strTruthy (some "") = false → b2.status = bookingWithReturn.status) ∧
      (strTruthy (some "") = false →
        b2.adminNotes = bookingWithReturn.adminNotes) :=
  updateBookingStatus_frame confirmedBookingDB 5 (some "") (some "")
    bookingWithReturn rfl (by decide)

/-! ## Claim C8 -/

/-- A user store resolving every reference to the same named user. -/
def usersFix : Nat → User := fun _ => { firstName := "Ana", lastName := "Cruz" }

/-- A second booking that departs earlier than `bookingWithReturn`. -/
def earlyBooking : Booking :=
  { bookingWithReturn with id := 6, departureDate := 50, returnDate := some 52 }

/-- A store holding two bookings in non-chronological order. -/
def twoBookingDB : DB :=
  { quotes := [], bookings := [bookingWithReturn, earlyBooking], history := [],
    nextId := 7 }

/-- Claim C8 counterexample: with swapped bounds (start 10 after end 0) on a
store that does contain a booking, `getCalendarEvents` does not fail with a
validation error — the handler never compares the bounds and answers
200 with the (empty) list of bookings in the empty range. -/
theorem getCalendarEvents_swapped_bounds_not_rejected :
    getCalendarEvents twoBookingDB usersFix (some 10) (some 0) = .ok [] := by
  rfl

/-- Claim C8 as amended: a missing `start` or `end` bound is rejected with
the 400 `'Start and end dates are required'` response; swapped bounds are
NOT rejected — they succeed with the empty event list (no departure date
lies in an empty range); and on any bounds the returned events are sorted
by `departureDate` ascending, each event coming from a stored booking with
`end` equal to its `returnDate` when present and its `departureDate`
otherwise. -/
theorem getCalendarEvents_spec (db : DB) (users : Nat → User)
    (startQ endQ : Option Int) :
    ((startQ = none ∨ endQ = none) →
      getCalendarEvents db users startQ endQ
        = .badRequest "Start and end dates are required") ∧
    (∀ s e, startQ = some s → endQ = some e → e < s →
      getCalendarEvents db users startQ endQ = .ok []) ∧
    (∀ s e evs, startQ = some s → endQ = some e →
      getCalendarEvents db users startQ endQ = .ok evs →
      evs.Pairwise (fun x y => x.start ≤ y.start) ∧
      ∀ ev ∈ evs, ∃ b ∈ db.bookings, ev.start = b.departureDate ∧
        ev.endDate = (match b.returnDate with
          | some r => r
          | none => b.departureDate)) := by
  refine ⟨?_, ?_, ?_⟩
  · intro h
    cases startQ with
    | none => cases endQ <;> rfl
    | some s =>
      cases endQ with
      | none => rfl
      | some e => rcases h with h | h <;> simp at h
  · intro s e hs he hlt
    subst hs; subst he
    have hred : getCalendarEvents db users (some s) (some e)
        = .ok (bookingCalendarEvents db.bookings users s e) := rfl
    have hfil : db.bookings.filter
        (fun b => s ≤ b.departureDate && b.departureDate ≤ e) = [] := by
      rw [List.filter_eq_nil_iff]
      intro a ha
      simp only [Bool.and_eq_true, decide_eq_true_eq]
      intro hand
      omega
    rw [hred]
    unfold bookingCalendarEvents getByDateRange
    rw [hfil]
    rfl
  · intro s e evs hs he hok
    subst hs; subst he
    simp only [getCalendarEvents, CalendarResponse.ok.injEq] at hok
    subst hok
    constructor
    · unfold bookingCalendarEvents getByDateRange
      exact List.Pairwise.map _ (fun a b hab => hab)
        (List.sorted_insertionSort byDeparture _)
    · intro ev hev
      unfold bookingCalendarEvents at hev
      rw [List.mem_map] at hev
      obtain ⟨b, hb, rfl⟩ := hev
      refine ⟨b, ?_, rfl, rfl⟩
      unfold getByDateRange at hb
      exact List.mem_of_mem_filter ((List.mem_insertionSort byDeparture).mp hb)

/-- The events the calendar query computes on `twoBookingDB` for the range
0-200. -/
def calendarEventsFix : List CalendarEvent :=
  bookingCalendarEvents twoBookingDB.bookings usersFix 0 200

/-- Claim C8 witness: the amended theorem applied to the concrete
two-booking store at a missing bound, at swapped bounds, and at a valid
range. -/
theorem getCalendarEvents_spec_witness :
    (getCalendarEvents twoBookingDB usersFix none (some 200)
        = .badRequest "Start and end dates are required") ∧
    (getCalendarEvents twoBookingDB usersFix (some 10) (some 0) = .ok []) ∧
    (calendarEventsFix.Pairwise (fun x y => x.start ≤ y.start) ∧
      ∀ ev ∈ calendarEventsFix, ∃ b ∈ twoBookingDB.bookings,
        ev.start = b.departureDate ∧
        ev.endDate = (match b.returnDate with
          | some r => r
          | none => b.departureDate)) :=
  ⟨(getCalendarEvents_spec twoBookingDB usersFix none (some 200)).1 (Or.inl rfl),
    (getCalendarEvents_spec twoBookingDB usersFix (some 10) (some 0)).2.1
      10 0 rfl rfl (by omega),
    (getCalendarEvents_spec twoBookingDB usersFix (some 0) (some 200)).2.2
      0 200 calendarEventsFix rfl rfl rfl⟩

end SearchGear
